import Mathlib

/-!
Shallow embedding of the ShinwariPOS order lifecycle, pricing and sync engine.

The pricing computation is embedded from `src/components/POSView.tsx` (the
`subtotal` / `discountAmount` / `discountedSubtotal` / `tax` / `serviceCharge` /
`total` constants of the `POSView` component).  The order lifecycle handlers
(`handlePlaceOrder`, `handleUpdateOrder`, `handleUpdateSettings`,
`handleUpdatePrinter`, `handleUpdateUsers`, the inline kitchen / menu /
inventory / expense callbacks and `performSync`) are embedded from the `App`
component in `src/unnamed/part_003`.  JavaScript numbers are modelled as
rationals (the code applies no rounding), the React state plus the persisted
localStorage collections are modelled as an explicit `AppState`, and the
persisted sequence counter of `PersistenceService` (whose source file is not
part of the repository snapshot) is modelled from the specification.
-/

namespace POS

/-- Order type enumeration (dine-in / takeaway / delivery), from usage in
`POSView.tsx` and the spec's data model. -/
inductive OrderType
  | DINE_IN
  | TAKEAWAY
  | DELIVERY
deriving DecidableEq, Repr

/-- Order status enumeration, from usage across the views and the spec's
state machine section. -/
inductive OrderStatus
  | PENDING
  | PREPARING
  | READY
  | COMPLETED
  | CANCELLED
  | REFUNDED
  | HELD
deriving DecidableEq, Repr

/-- Payment methods used by the checkout overlay in `POSView.tsx`. -/
inductive PaymentMethod
  | CASH
  | CARD
deriving DecidableEq, Repr

/-- A size/variation of a menu item, carrying its own price snapshot. -/
structure Variation where
  id : String
  name : String
  price : ℚ
deriving DecidableEq, Repr

/-- An add-on with its price snapshot. -/
structure Addon where
  name : String
  price : ℚ
deriving DecidableEq, Repr

/-- A cart line item: menu item snapshot plus quantity, optional selected
variation and selected add-ons (the fields the pricing code reads). -/
structure CartItem where
  id : String
  name : String
  price : ℚ
  quantity : Nat
  selectedVariation : Option Variation := none
  selectedAddons : List Addon := []
deriving DecidableEq, Repr

/-- The order-context details object built by `handleCheckout` in
`POSView.tsx` and spread into the order by the `App` handlers. -/
structure OrderDetails where
  tableNumber : Option String := none
  customerName : String := ""
  customerPhone : String := ""
  deliveryAddress : Option String := none
  kitchenNote : String := ""
  subtotal : ℚ := 0
  taxAmount : ℚ := 0
  discountAmount : ℚ := 0
  serviceChargeAmount : ℚ := 0
deriving DecidableEq, Repr

/-- The central Order entity, with the fields written by `handlePlaceOrder`
in `src/unnamed/part_003`. -/
structure Order where
  id : String
  orderNumber : Nat
  type : OrderType
  items : List CartItem
  total : ℚ
  status : OrderStatus
  timestamp : Nat
  paymentMethod : PaymentMethod
  cashierName : String
  tableNumber : Option String
  customerName : String
  customerPhone : String
  deliveryAddress : Option String
  kitchenNote : String
  subtotal : ℚ
  taxAmount : ℚ
  discountAmount : ℚ
  serviceChargeAmount : ℚ
deriving DecidableEq, Repr

/-- Staff user record (fields used by `SettingsView.tsx`). -/
structure User where
  id : String
  name : String
  pin : String
deriving DecidableEq, Repr

/-- Menu item collection entry (opaque payload for the store). -/
structure MenuItem where
  id : String
  name : String
  price : ℚ
deriving DecidableEq, Repr

/-- Inventory collection entry (opaque payload for the store). -/
structure InventoryItem where
  id : String
  name : String
deriving DecidableEq, Repr

/-- Expense collection entry (fields used by the expense callbacks). -/
structure Expense where
  id : String
  amount : ℚ
deriving DecidableEq, Repr

/-- Purchase collection entry (opaque payload for the store). -/
structure Purchase where
  id : String
  totalCost : ℚ
deriving DecidableEq, Repr

/-- Stock transaction collection entry (opaque payload for the store). -/
structure StockTransaction where
  id : String
deriving DecidableEq, Repr

/-- Customer collection entry (opaque payload for the store). -/
structure Customer where
  id : String
deriving DecidableEq, Repr

/-- Printer configuration singleton (fields used by `SettingsView.tsx`). -/
structure PrinterConfig where
  paperWidth : String
  autoPrint : Bool
deriving DecidableEq, Repr

/-- System settings singleton: the fields the pricing calculator and the
sync engine read (`taxRate`, `serviceChargeRate`, `sync.enabled`,
`sync.dropbox.accessToken`), plus the restaurant name. -/
structure SystemSettings where
  restaurantName : String
  taxRate : ℚ
  serviceChargeRate : ℚ
  syncEnabled : Bool
  accessToken : String
deriving DecidableEq, Repr

/-! ## Pricing calculator

Embedded from `POSView.tsx` lines 56-66.  Each `def` mirrors one of the
component's `const` bindings; `reduce` is `List.foldl` with accumulator 0. -/

/-- One cart line's contribution:
`(basePrice + addonCost) * item.quantity` where `basePrice` is the selected
variation's price when present, otherwise the item price, and `addonCost`
is the reduce-sum of the selected add-on prices. -/
def itemLineTotal (item : CartItem) : ℚ :=
  ((match item.selectedVariation with
    | some v => v.price
    | none => item.price)
   + item.selectedAddons.foldl (fun aSum a => aSum + a.price) 0)
  * (item.quantity : ℚ)

/-- `subtotal = cart.reduce((sum, item) => sum + lineTotal(item), 0)`. -/
def subtotalOf (cart : List CartItem) : ℚ :=
  cart.foldl (fun sum item => sum + itemLineTotal item) 0

/-- Discount kinds of the discount modal in `POSView.tsx`. -/
inductive DiscountKind
  | PERCENT
  | FIXED
deriving DecidableEq, Repr

/-- `discountAmount = discountType === 'PERCENT' ? subtotal * (value/100) : value`. -/
def discountAmountOf (cart : List CartItem) (dk : DiscountKind) (dv : ℚ) : ℚ :=
  if dk = DiscountKind.PERCENT then subtotalOf cart * (dv / 100) else dv

/-- `discountedSubtotal = Math.max(0, subtotal - discountAmount)`. -/
def discountedSubtotalOf (cart : List CartItem) (dk : DiscountKind) (dv : ℚ) : ℚ :=
  max 0 (subtotalOf cart - discountAmountOf cart dk dv)

/-- `tax = discountedSubtotal * (settings.taxRate / 100)`. -/
def taxOf (cart : List CartItem) (dk : DiscountKind) (dv tr : ℚ) : ℚ :=
  discountedSubtotalOf cart dk dv * (tr / 100)

/-- `serviceCharge = orderType === DINE_IN ? discountedSubtotal * (rate/100) : 0`. -/
def serviceChargeOf (cart : List CartItem) (dk : DiscountKind) (dv sr : ℚ)
    (ot : OrderType) : ℚ :=
  if ot = OrderType.DINE_IN then discountedSubtotalOf cart dk dv * (sr / 100) else 0

/-- `total = discountedSubtotal + tax + serviceCharge`. -/
def totalOf (cart : List CartItem) (dk : DiscountKind) (dv tr sr : ℚ)
    (ot : OrderType) : ℚ :=
  discountedSubtotalOf cart dk dv + taxOf cart dk dv tr + serviceChargeOf cart dk dv sr ot

/-- The full monetary breakdown. -/
structure Pricing where
  subtotal : ℚ
  discountAmount : ℚ
  discountedSubtotal : ℚ
  tax : ℚ
  serviceCharge : ℚ
  total : ℚ
deriving DecidableEq, Repr

/-- The pricing computation of `POSView`, bundling the six derived values. -/
def computePricing (cart : List CartItem) (dk : DiscountKind) (dv tr sr : ℚ)
    (ot : OrderType) : Pricing :=
  { subtotal := subtotalOf cart
    discountAmount := discountAmountOf cart dk dv
    discountedSubtotal := discountedSubtotalOf cart dk dv
    tax := taxOf cart dk dv tr
    serviceCharge := serviceChargeOf cart dk dv sr ot
    total := totalOf cart dk dv tr sr ot }

/-- Claim-side line contribution, following the spec's words: (unit price, or
the selected variation's price when present, plus the sum of selected add-on
prices) times quantity.  Used only to compare with the source embedding. -/
def specLineTotal (i : CartItem) : ℚ :=
  ((match i.selectedVariation with
    | some v => v.price
    | none => i.price)
   + (i.selectedAddons.map Addon.price).sum)
  * (i.quantity : ℚ)

/-- Claim-side subtotal: sum over line items of the line contributions. -/
def specSubtotal (cart : List CartItem) : ℚ :=
  (cart.map specLineTotal).sum

/-- A left fold adding `f x` for each element equals the accumulator plus the
sum of the mapped list. -/
theorem foldl_add_eq_sum {α : Type} (f : α → ℚ) (l : List α) (a : ℚ) :
    l.foldl (fun s x => s + f x) a = a + (l.map f).sum := by
  induction l generalizing a with
  | nil => simp
  | cons x xs ih => simp [ih, add_assoc]

/-- The source line total agrees with the spec-side line total. -/
theorem itemLineTotal_eq_spec (i : CartItem) : itemLineTotal i = specLineTotal i := by
  unfold itemLineTotal specLineTotal
  rw [foldl_add_eq_sum Addon.price i.selectedAddons 0, zero_add]

/-- The source subtotal agrees with the spec-side subtotal. -/
theorem subtotalOf_eq_spec (cart : List CartItem) : subtotalOf cart = specSubtotal cart := by
  unfold subtotalOf specSubtotal
  rw [foldl_add_eq_sum itemLineTotal cart 0, zero_add]
  exact congrArg List.sum (List.map_congr_left fun i _ => itemLineTotal_eq_spec i)

/-- The single cart line of the spec's Scenario A: item price 500, quantity 2. -/
def scenarioItem : CartItem :=
  { id := "i1", name := "Item", price := 500, quantity := 2 }

/-- Scenario A subtotal evaluates to 1000. -/
theorem scenarioA_subtotal : subtotalOf [scenarioItem] = 1000 := by
  norm_num [subtotalOf, itemLineTotal, scenarioItem]

/-- Scenario A discount evaluates to 100. -/
theorem scenarioA_discount :
    discountAmountOf [scenarioItem] DiscountKind.PERCENT 10 = 100 := by
  norm_num [discountAmountOf, scenarioA_subtotal]

/-- Scenario A discounted subtotal evaluates to 900. -/
theorem scenarioA_discountedSubtotal :
    discountedSubtotalOf [scenarioItem] DiscountKind.PERCENT 10 = 900 := by
  rw [discountedSubtotalOf, scenarioA_subtotal, scenarioA_discount]
  norm_num

/-- Scenario A tax evaluates to 45. -/
theorem scenarioA_tax : taxOf [scenarioItem] DiscountKind.PERCENT 10 5 = 45 := by
  rw [taxOf, scenarioA_discountedSubtotal]
  norm_num

/-- Scenario A service charge evaluates to 90. -/
theorem scenarioA_serviceCharge :
    serviceChargeOf [scenarioItem] DiscountKind.PERCENT 10 10 OrderType.DINE_IN = 90 := by
  rw [serviceChargeOf, if_pos rfl, scenarioA_discountedSubtotal]
  norm_num

/-- Scenario A total evaluates to 1035. -/
theorem scenarioA_total :
    totalOf [scenarioItem] DiscountKind.PERCENT 10 5 10 OrderType.DINE_IN = 1035 := by
  rw [totalOf, scenarioA_discountedSubtotal, scenarioA_tax, scenarioA_serviceCharge]
  norm_num

/-- Claim C1: the pricing computation satisfies the spec's formulas —
subtotal is the sum over line items of (unit price, or the selected
variation's price when present, plus the selected add-on prices) times
quantity; discountAmount is subtotal*value/100 for PERCENT and the raw value
for FIXED; discountedSubtotal = max(0, subtotal - discountAmount);
tax = discountedSubtotal*taxRate/100; serviceCharge =
discountedSubtotal*serviceChargeRate/100 for DINE_IN and 0 otherwise;
total = discountedSubtotal + tax + serviceCharge.  In particular Scenario A
(cart = [price 500 qty 2], PERCENT 10, taxRate 5, serviceChargeRate 10,
DINE_IN) yields subtotal 1000, discount 100, tax 45, serviceCharge 90,
total 1035. -/
theorem pricing_formula_and_scenarioA :
    (∀ (cart : List CartItem) (dk : DiscountKind) (dv tr sr : ℚ) (ot : OrderType),
      (computePricing cart dk dv tr sr ot).subtotal = specSubtotal cart ∧
      (computePricing cart dk dv tr sr ot).discountAmount
        = (if dk = DiscountKind.PERCENT then specSubtotal cart * dv / 100 else dv) ∧
      (computePricing cart dk dv tr sr ot).discountedSubtotal
        = max 0 (specSubtotal cart - (computePricing cart dk dv tr sr ot).discountAmount) ∧
      (computePricing cart dk dv tr sr ot).tax
        = (computePricing cart dk dv tr sr ot).discountedSubtotal * tr / 100 ∧
      (computePricing cart dk dv tr sr ot).serviceCharge
        = (if ot = OrderType.DINE_IN
            then (computePricing cart dk dv tr sr ot).discountedSubtotal * sr / 100
            else 0) ∧
      (computePricing cart dk dv tr sr ot).total
        = (computePricing cart dk dv tr sr ot).discountedSubtotal
          + (computePricing cart dk dv tr sr ot).tax
          + (computePricing cart dk dv tr sr ot).serviceCharge) ∧
    ((computePricing [scenarioItem] DiscountKind.PERCENT 10 5 10 OrderType.DINE_IN).subtotal
        = 1000 ∧
     (computePricing [scenarioItem] DiscountKind.PERCENT 10 5 10 OrderType.DINE_IN).discountAmount
        = 100 ∧
     (computePricing [scenarioItem] DiscountKind.PERCENT 10 5 10 OrderType.DINE_IN).discountedSubtotal
        = 900 ∧
     (computePricing [scenarioItem] DiscountKind.PERCENT 10 5 10 OrderType.DINE_IN).tax
        = 45 ∧
     (computePricing [scenarioItem] DiscountKind.PERCENT 10 5 10 OrderType.DINE_IN).serviceCharge
        = 90 ∧
     (computePricing [scenarioItem] DiscountKind.PERCENT 10 5 10 OrderType.DINE_IN).total
        = 1035) := by
  constructor
  · intro cart dk dv tr sr ot
    refine ⟨subtotalOf_eq_spec cart, ?_, ?_, ?_, ?_, ?_⟩
    · simp only [computePricing, discountAmountOf, subtotalOf_eq_spec, mul_div_assoc]
    · simp only [computePricing, discountedSubtotalOf, subtotalOf_eq_spec]
    · simp only [computePricing, taxOf, mul_div_assoc]
    · simp only [computePricing, serviceChargeOf, mul_div_assoc]
    · simp only [computePricing, totalOf]
  · exact ⟨scenarioA_subtotal, scenarioA_discount, scenarioA_discountedSubtotal,
      scenarioA_tax, scenarioA_serviceCharge, scenarioA_total⟩

/-- Claim C9 (counterexample): with a negative tax rate (-200), which the
settings form does not prevent, the computed total is negative: cart
[price 100 qty 1], no discount, takeaway gives total -100 < 0.  Hence the
claim's universal quantification over every rate configuration fails. -/
theorem total_negative_counterexample :
    (computePricing [{ id := "i2", name := "X", price := 100, quantity := 1 }]
      DiscountKind.FIXED 0 (-200) 0 OrderType.TAKEAWAY).total = -100 ∧
    ((-100 : ℚ) < 0) := by
  have hsub : subtotalOf [({ id := "i2", name := "X", price := 100, quantity := 1 } : CartItem)]
      = 100 := by
    norm_num [subtotalOf, itemLineTotal]
  have hds : discountedSubtotalOf
      [({ id := "i2", name := "X", price := 100, quantity := 1 } : CartItem)]
      DiscountKind.FIXED 0 = 100 := by
    rw [discountedSubtotalOf, discountAmountOf, if_neg (by simp), hsub]
    norm_num
  constructor
  · show totalOf _ _ _ _ _ _ = -100
    rw [totalOf, taxOf, serviceChargeOf, if_neg (by simp), hds]
    norm_num
  · norm_num

/-- Claim C9 (amended): whenever the configured tax rate and service-charge
rate are nonnegative, the computed total is nonnegative for every cart,
discount specification and order type; in particular a FIXED discount larger
than the subtotal never drives the total negative (the discounted subtotal is
clamped at 0). -/
theorem total_nonneg_amended (cart : List CartItem) (dk : DiscountKind) (dv tr sr : ℚ)
    (ot : OrderType) (ht : 0 ≤ tr) (hs : 0 ≤ sr) :
    0 ≤ (computePricing cart dk dv tr sr ot).total := by
  have hds : (0 : ℚ) ≤ discountedSubtotalOf cart dk dv := le_max_left 0 _
  have htax : (0 : ℚ) ≤ taxOf cart dk dv tr :=
    mul_nonneg hds (div_nonneg ht (by norm_num))
  have hsc : (0 : ℚ) ≤ serviceChargeOf cart dk dv sr ot := by
    unfold serviceChargeOf
    split
    · exact mul_nonneg hds (div_nonneg hs (by norm_num))
    · exact le_refl 0
  show 0 ≤ totalOf cart dk dv tr sr ot
  exact add_nonneg (add_nonneg hds htax) hsc

/-- Witness for the amended C9 theorem at Scenario A's configuration. -/
theorem total_nonneg_amended_witness :
    (0 : ℚ) ≤ 5 ∧ (0 : ℚ) ≤ 10 ∧
    0 ≤ (computePricing [scenarioItem] DiscountKind.PERCENT 10 5 10 OrderType.DINE_IN).total :=
  ⟨by norm_num, by norm_num,
   total_nonneg_amended [scenarioItem] DiscountKind.PERCENT 10 5 10 OrderType.DINE_IN
     (by norm_num) (by norm_num)⟩

/-! ## Application state and order lifecycle handlers

Embedded from the `App` component in `src/unnamed/part_003`.  The React state
and the localStorage collections behind `PersistenceService` are merged into
one explicit `AppState` (every handler writes both with the same value).  The
`PersistenceService` sequence counter is not part of the repository snapshot,
so it is modelled from the specification (section 4.2). -/

/-- The application state: the persisted sequence counter, the orders
collection, the POS editing state and the satellite collections and
singletons mutated by the `App` handlers. -/
structure AppState where
  counter : Nat
  orders : List Order
  currentOrderId : Option String
  cart : List CartItem
  settings : SystemSettings
  printerConfig : PrinterConfig
  users : List User
  menuItems : List MenuItem
  categories : List String
  inventory : List InventoryItem
  expenses : List Expense
deriving DecidableEq, Repr

/-- Default settings record with sync disabled. -/
def initialSettings : SystemSettings :=
  { restaurantName := "", taxRate := 0, serviceChargeRate := 0,
    syncEnabled := false, accessToken := "" }

/-- Default printer configuration. -/
def initialPrinter : PrinterConfig :=
  { paperWidth := "80mm", autoPrint := false }

/-- First-run application state: empty collections and, per the spec, a
sequence counter that initializes to 1 when absent. -/
def initAppState : AppState :=
  { counter := 1, orders := [], currentOrderId := none, cart := [],
    settings := initialSettings, printerConfig := initialPrinter, users := [],
    menuItems := [], categories := [], inventory := [], expenses := [] }

/-- Modelled from the spec: `PersistenceService.peekNextOrderNumber` (its
source file is not under src/) returns the counter value the next committed
order would receive, without mutating state. -/
def peekNextOrderNumber (s : AppState) : Nat :=
  s.counter

/-- Modelled from the spec: `PersistenceService.getNextOrderNumber` (its
source file is not under src/) atomically reads the current counter, returns
it, and persists counter + 1. -/
def getNextOrderNumber (s : AppState) : Nat × AppState :=
  (s.counter, { s with counter := s.counter + 1 })

/-- `handlePlaceOrder` from `src/unnamed/part_003`: commits the next order
number, builds the new order (fresh random id, status PENDING, current
timestamp, cashier name defaulting to "Admin", spread of the context
details), prepends it to the orders collection, clears the cart, and fires a
sync push when sync is enabled (returned as the final boolean). -/
def handlePlaceOrder (s : AppState) (freshId : String) (now : Nat)
    (currentUser : Option String) (items : List CartItem) (total : ℚ)
    (ty : OrderType) (details : OrderDetails) (method : PaymentMethod) :
    Order × AppState × Bool :=
  let seqRes := getNextOrderNumber s
  let newOrder : Order :=
    { id := freshId
      orderNumber := seqRes.1
      type := ty
      items := items
      total := total
      status := OrderStatus.PENDING
      timestamp := now
      paymentMethod := method
      cashierName := currentUser.getD "Admin"
      tableNumber := details.tableNumber
      customerName := details.customerName
      customerPhone := details.customerPhone
      deliveryAddress := details.deliveryAddress
      kitchenNote := details.kitchenNote
      subtotal := details.subtotal
      taxAmount := details.taxAmount
      discountAmount := details.discountAmount
      serviceChargeAmount := details.serviceChargeAmount }
  (newOrder,
   { seqRes.2 with orders := newOrder :: seqRes.2.orders, cart := [] },
   s.settings.syncEnabled)

/-- Errors signalled by the lifecycle handlers (`throw new Error("Order not
found")` in `handleUpdateOrder`). -/
inductive OrderError
  | notFound
deriving DecidableEq, Repr

/-- The replacement order built by `handleUpdateOrder`:
`{ ...existing, items, total, status: PENDING, paymentMethod, ...details }`.
The spread of `details` supplies the context-detail and monetary fields; the
order type, id, orderNumber, timestamp and cashier name are kept from the
existing order. -/
def revisedOrder (existing : Order) (items : List CartItem) (total : ℚ)
    (details : OrderDetails) (method : PaymentMethod) : Order :=
  { existing with
      items := items
      total := total
      status := OrderStatus.PENDING
      paymentMethod := method
      tableNumber := details.tableNumber
      customerName := details.customerName
      customerPhone := details.customerPhone
      deliveryAddress := details.deliveryAddress
      kitchenNote := details.kitchenNote
      subtotal := details.subtotal
      taxAmount := details.taxAmount
      discountAmount := details.discountAmount
      serviceChargeAmount := details.serviceChargeAmount }

/-- `handleUpdateOrder` from `src/unnamed/part_003`: looks up the order whose
id equals `currentOrderId`; throws "Order not found" (before any mutation)
when the lookup fails; otherwise replaces the order in place, clears the
editing state and the cart, and fires a sync push when sync is enabled.  The
order-type argument is accepted but never written.  The final boolean records
whether a push was fired. -/
def handleUpdateOrder (s : AppState) (items : List CartItem) (total : ℚ)
    (ty : OrderType) (details : OrderDetails) (method : PaymentMethod) :
    Except OrderError Order × AppState × Bool :=
  match s.orders.find? (fun o => some o.id == s.currentOrderId) with
  | none => (Except.error OrderError.notFound, s, false)
  | some existing =>
      let updatedOrder := revisedOrder existing items total details method
      let updated := s.orders.map
        (fun o => if some o.id == s.currentOrderId then updatedOrder else o)
      (Except.ok updatedOrder,
       { s with orders := updated, currentOrderId := none, cart := [] },
       s.settings.syncEnabled)

/-- `handleUpdateSettings`: persists the new settings and pushes when the new
settings have sync enabled. -/
def handleUpdateSettings (s : AppState) (newSettings : SystemSettings) :
    AppState × Bool :=
  ({ s with settings := newSettings }, newSettings.syncEnabled)

/-- `handleUpdatePrinter`: persists the new printer configuration.  No sync
push is fired. -/
def handleUpdatePrinter (s : AppState) (newConfig : PrinterConfig) :
    AppState × Bool :=
  ({ s with printerConfig := newConfig }, false)

/-- `handleUpdateUsers`: persists the new users collection.  No sync push is
fired. -/
def handleUpdateUsers (s : AppState) (newUsers : List User) : AppState × Bool :=
  ({ s with users := newUsers }, false)

/-- The kitchen view's `updateOrderStatus` callback on the orders collection:
maps over the orders, replacing the status of any order whose id matches.  A
missing id leaves every order unchanged and signals nothing. -/
def updateOrderStatus (orders : List Order) (id : String) (st : OrderStatus) :
    List Order :=
  orders.map (fun o => if o.id == id then { o with status := st } else o)

/-- The kitchen view's `updateOrderStatus` callback at the state level:
persists the mapped collection and pushes when sync is enabled. -/
def kitchenUpdateOrderStatus (s : AppState) (id : String) (st : OrderStatus) :
    AppState × Bool :=
  ({ s with orders := updateOrderStatus s.orders id st }, s.settings.syncEnabled)

/-- The menu view's `onUpdateMenu` callback: replaces the menu collection and
pushes when sync is enabled. -/
def onUpdateMenu (s : AppState) (items : List MenuItem) : AppState × Bool :=
  ({ s with menuItems := items }, s.settings.syncEnabled)

/-- The menu view's `onAddCategory` callback: appends the category when it is
new (pushing when sync is enabled); a duplicate name is a no-op. -/
def onAddCategory (s : AppState) (name : String) : AppState × Bool :=
  if name ∈ s.categories then (s, false)
  else ({ s with categories := s.categories ++ [name] }, s.settings.syncEnabled)

/-- The inventory view's `onAddInventoryItem` callback. -/
def onAddInventoryItem (s : AppState) (i : InventoryItem) : AppState × Bool :=
  ({ s with inventory := s.inventory ++ [i] }, s.settings.syncEnabled)

/-- The inventory view's `onUpdateInventoryItem` callback. -/
def onUpdateInventoryItem (s : AppState) (i : InventoryItem) : AppState × Bool :=
  ({ s with inventory := s.inventory.map (fun x => if x.id == i.id then i else x) },
   s.settings.syncEnabled)

/-- The expense view's `onAddExpense` callback: prepends the expense. -/
def onAddExpense (s : AppState) (e : Expense) : AppState × Bool :=
  ({ s with expenses := e :: s.expenses }, s.settings.syncEnabled)

/-- The expense view's `onDeleteExpense` callback: filters the expense out. -/
def onDeleteExpense (s : AppState) (id : String) : AppState × Bool :=
  ({ s with expenses := s.expenses.filter (fun x => x.id != id) },
   s.settings.syncEnabled)

/-- The checkout button of `POSView.tsx` is disabled exactly when the cart is
empty (`disabled={cart.length === 0}`). -/
def checkoutDisabled (cart : List CartItem) : Bool :=
  cart.length == 0

/-! ## Sequences of peeks and order creations

Used to state the sequence-generator invariants: a run is any interleaving of
`peekNextOrderNumber` reads and `handlePlaceOrder` calls. -/

/-- The argument bundle of one `handlePlaceOrder` call. -/
structure CreateArgs where
  freshId : String
  now : Nat
  currentUser : Option String
  items : List CartItem
  total : ℚ
  ty : OrderType
  details : OrderDetails
  method : PaymentMethod

/-- One step of a run: a non-committing peek or an order creation. -/
inductive POp
  | peek
  | create (args : CreateArgs)

/-- Run one step, returning the new state and the order number assigned to a
created order (none for a peek: `peekNextOrderNumber` only reads). -/
def runOp (s : AppState) : POp → AppState × Option Nat
  | POp.peek => (s, none)
  | POp.create a =>
      let r := handlePlaceOrder s a.freshId a.now a.currentUser a.items a.total
        a.ty a.details a.method
      (r.2.1, some r.1.orderNumber)

/-- Run a list of steps, collecting the assigned order numbers in creation
order. -/
def runOps (s : AppState) : List POp → AppState × List Nat
  | [] => (s, [])
  | op :: rest =>
      let r1 := runOp s op
      let r2 := runOps r1.1 rest
      (r2.1, r1.2.toList ++ r2.2)

/-- A created order receives the current counter and the counter advances by
one. -/
theorem runOp_create_counter (s : AppState) (a : CreateArgs) :
    (runOp s (POp.create a)).1.counter = s.counter + 1 ∧
    (runOp s (POp.create a)).2 = some s.counter :=
  ⟨rfl, rfl⟩

/-- Unfolding lemma for `runOps` on a cons. -/
theorem runOps_cons (s : AppState) (op : POp) (rest : List POp) :
    runOps s (op :: rest)
      = ((runOps (runOp s op).1 rest).1,
         (runOp s op).2.toList ++ (runOps (runOp s op).1 rest).2) :=
  rfl

/-- Final state of a cons run. -/
theorem runOps_cons_fst (s : AppState) (op : POp) (rest : List POp) :
    (runOps s (op :: rest)).1 = (runOps (runOp s op).1 rest).1 :=
  rfl

/-- Assigned numbers of a cons run. -/
theorem runOps_cons_snd (s : AppState) (op : POp) (rest : List POp) :
    (runOps s (op :: rest)).2
      = (runOp s op).2.toList ++ (runOps (runOp s op).1 rest).2 :=
  rfl

/-- The counter never decreases along a run. -/
theorem runOps_counter_le (ops : List POp) :
    ∀ s : AppState, s.counter ≤ (runOps s ops).1.counter := by
  induction ops with
  | nil => intro s; exact le_refl _
  | cons op rest ih =>
      intro s
      rw [runOps_cons_fst]
      refine le_trans ?_ (ih (runOp s op).1)
      cases op with
      | peek => exact le_refl _
      | create a =>
          rw [(runOp_create_counter s a).1]
          exact Nat.le_succ _

/-- Every assigned order number lies between the starting counter and the
final counter. -/
theorem runOps_bounds (ops : List POp) :
    ∀ s : AppState, ∀ n ∈ (runOps s ops).2,
      s.counter ≤ n ∧ n < (runOps s ops).1.counter := by
  induction ops with
  | nil => intro s n hn; simp [runOps] at hn
  | cons op rest ih =>
      intro s n hn
      rw [runOps_cons_snd] at hn
      rw [runOps_cons_fst]
      rcases List.mem_append.mp hn with h | h
      · cases op with
        | peek => simp [runOp] at h
        | create a =>
            rw [(runOp_create_counter s a).2] at h
            simp only [Option.toList_some, List.mem_singleton] at h
            subst h
            refine ⟨le_refl _, ?_⟩
            have hrest := runOps_counter_le rest (runOp s (POp.create a)).1
            have hc := (runOp_create_counter s a).1
            omega
      · have hb := ih (runOp s op).1 n h
        have hstep : s.counter ≤ (runOp s op).1.counter := by
          cases op with
          | peek => exact le_refl _
          | create a => rw [(runOp_create_counter s a).1]; exact Nat.le_succ _
        exact ⟨le_trans hstep hb.1, hb.2⟩

/-- The assigned order numbers of any run are strictly increasing in creation
order. -/
theorem runOps_chain (ops : List POp) :
    ∀ s : AppState, List.Chain' (· < ·) (runOps s ops).2 := by
  induction ops with
  | nil => intro s; simp [runOps]
  | cons op rest ih =>
      intro s
      rw [runOps_cons_snd]
      cases op with
      | peek => simpa [runOp] using ih s
      | create a =>
          rw [(runOp_create_counter s a).2]
          simp only [Option.toList_some, List.singleton_append]
          rw [List.chain'_cons']
          refine ⟨?_, ih _⟩
          intro y hy
          have hmem : y ∈ (runOps (runOp s (POp.create a)).1 rest).2 :=
            List.mem_of_mem_head? hy
          have hb := runOps_bounds rest (runOp s (POp.create a)).1 y hmem
          have hc := (runOp_create_counter s a).1
          omega

/-- The store invariant of the sequence generator: the order numbers in the
local store are pairwise distinct and all below the persisted counter. -/
def SeqInv (s : AppState) : Prop :=
  (s.orders.map Order.orderNumber).Nodup ∧
  ∀ n ∈ s.orders.map Order.orderNumber, n < s.counter

/-- One step preserves the store invariant. -/
theorem runOp_inv (s : AppState) (op : POp) (h : SeqInv s) : SeqInv (runOp s op).1 := by
  cases op with
  | peek => exact h
  | create a =>
      obtain ⟨hnd, hub⟩ := h
      have hmap : (runOp s (POp.create a)).1.orders.map Order.orderNumber
          = s.counter :: s.orders.map Order.orderNumber := rfl
      have hc := (runOp_create_counter s a).1
      constructor
      · rw [hmap]
        refine List.nodup_cons.mpr ⟨?_, hnd⟩
        intro hmem
        exact absurd (hub _ hmem) (lt_irrefl _)
      · rw [hmap, hc]
        intro n hn
        rcases List.mem_cons.mp hn with h1 | h1
        · omega
        · have := hub n h1; omega

/-- A full run preserves the store invariant. -/
theorem runOps_inv (ops : List POp) :
    ∀ s : AppState, SeqInv s → SeqInv (runOps s ops).1 := by
  induction ops with
  | nil => intro s h; exact h
  | cons op rest ih =>
      intro s h
      rw [runOps_cons_fst]
      exact ih (runOp s op).1 (runOp_inv s op h)

/-- Peeking N times and then creating one order assigns exactly the starting
counter value: peeks introduce no gaps. -/
theorem runOps_peeks_then_create (N : Nat) :
    ∀ (s : AppState) (a : CreateArgs),
      (runOps s (List.replicate N POp.peek ++ [POp.create a])).2 = [s.counter] := by
  induction N with
  | zero =>
      intro s a
      rw [List.replicate_zero, List.nil_append, runOps_cons_snd,
        (runOp_create_counter s a).2]
      simp [runOps]
  | succ n ih =>
      intro s a
      rw [List.replicate_succ, List.cons_append, runOps_cons_snd]
      simpa [runOp] using ih s a

/-! ## Sync engine

Embedded from `performSync` in `src/unnamed/part_003`.  The persisted
localStorage database and the in-memory React views are modelled as two
copies of one `Snapshot`; `PersistenceService.saveAllData` (whose source file
is not under src/) is modelled from the specification as a whole-snapshot
replace, and `loadLocalData` as re-reading every collection from the
persisted store. -/

/-- Process-wide sync status values of the `App` component. -/
inductive SyncStatus
  | idle
  | success
  | error
  | offline
deriving DecidableEq, Repr

/-- The whole-database snapshot: every entity collection and singleton. -/
structure Snapshot where
  orders : List Order
  inventory : List InventoryItem
  menuItems : List MenuItem
  categories : List String
  purchases : List Purchase
  transactions : List StockTransaction
  expenses : List Expense
  users : List User
  customers : List Customer
  settings : SystemSettings
  printerConfig : PrinterConfig
deriving DecidableEq, Repr

/-- Outcome of the remote file download: a parsed snapshot, a 404 ("file not
yet created"), or any other failure. -/
inductive PullResponse
  | ok (data : Snapshot)
  | notFound
  | failure
deriving DecidableEq, Repr

/-- The sync-relevant state: the persisted local store, the in-memory views,
and the process-wide sync status. -/
structure SyncState where
  persisted : Snapshot
  inMemory : Snapshot
  status : SyncStatus
deriving DecidableEq, Repr

/-- Modelled from the spec: `PersistenceService.saveAllData` (its source file
is not under src/) atomically replaces every persisted collection and
singleton with the snapshot's contents. -/
def saveAllData (cloudData : Snapshot) (_old : Snapshot) : Snapshot :=
  cloudData

/-- `loadLocalData` from `src/unnamed/part_003`: re-reads every collection
and singleton from the persisted store into the in-memory views (each of its
setters copies one `PersistenceService` getter). -/
def loadLocalData (persisted : Snapshot) : Snapshot :=
  persisted

/-- `performSync('PULL')` from `src/unnamed/part_003`: a missing or empty
token (the `token` parameter stands for the already-trimmed access token), or
an offline device, is a no-op.  Otherwise a parsed remote snapshot replaces
the persisted store (`saveAllData`), the views are reloaded
(`loadLocalData`) and the status becomes `success`; a 404 makes no mutation
and leaves the status at the non-error `idle`; any other failure sets status
`error` without mutation. -/
def performSyncPull (st : SyncState) (token : String) (online : Bool)
    (resp : PullResponse) : SyncState :=
  if token = "" ∨ online = false then st
  else
    match resp with
    | PullResponse.ok cloudData =>
        let p := saveAllData cloudData st.persisted
        { persisted := p, inMemory := loadLocalData p, status := SyncStatus.success }
    | PullResponse.notFound => { st with status := SyncStatus.idle }
    | PullResponse.failure => { st with status := SyncStatus.error }

/-- Outcome of the remote file upload. -/
inductive PushResponse
  | ok
  | failure
deriving DecidableEq, Repr

/-- `performSync('PUSH')` from `src/unnamed/part_003`: uploads the current
persisted store; only the status changes — success or error — and the local
data is never touched. -/
def performSyncPush (st : SyncState) (token : String) (online : Bool)
    (resp : PushResponse) : SyncState :=
  if token = "" ∨ online = false then st
  else
    match resp with
    | PushResponse.ok => { st with status := SyncStatus.success }
    | PushResponse.failure => { st with status := SyncStatus.error }

/-! ## Sample data used by witnesses and counterexamples -/

/-- A sample PENDING dine-in order with id "A" and order number 1. -/
def sampleOrderA : Order :=
  { id := "A", orderNumber := 1, type := OrderType.DINE_IN, items := [],
    total := 0, status := OrderStatus.PENDING, timestamp := 0,
    paymentMethod := PaymentMethod.CASH, cashierName := "Admin",
    tableNumber := none, customerName := "", customerPhone := "",
    deliveryAddress := none, kitchenNote := "", subtotal := 0, taxAmount := 0,
    discountAmount := 0, serviceChargeAmount := 0 }

/-- A state holding order "A" while the editing surface targets the absent
id "B". -/
def sampleStateMissing : AppState :=
  { initAppState with orders := [sampleOrderA], currentOrderId := some "B" }

/-- A state holding order "A" while the editing surface targets "A". -/
def sampleStateEditing : AppState :=
  { initAppState with orders := [sampleOrderA], currentOrderId := some "A" }

/-- A state with sync enabled in the settings. -/
def sampleStateSyncOn : AppState :=
  { initAppState with settings := { initialSettings with syncEnabled := true } }

/-- A 58mm printer configuration, different from the default 80mm one. -/
def samplePrinter58 : PrinterConfig :=
  { paperWidth := "58mm", autoPrint := false }

/-- An empty snapshot. -/
def sampleSnapshot : Snapshot :=
  { orders := [], inventory := [], menuItems := [], categories := [],
    purchases := [], transactions := [], expenses := [], users := [],
    customers := [], settings := initialSettings,
    printerConfig := initialPrinter }

/-- A snapshot that differs from `sampleSnapshot` (one category). -/
def sampleSnapshot2 : Snapshot :=
  { sampleSnapshot with categories := ["Karahi"] }

/-- An idle sync state over the empty snapshot. -/
def sampleSyncState : SyncState :=
  { persisted := sampleSnapshot, inMemory := sampleSnapshot,
    status := SyncStatus.idle }

/-! ## The claims -/

/-- Claim C2: over every interleaving of `createOrder` and `peekNext` calls
started from the fresh store, the assigned order numbers are strictly
increasing in creation order and pairwise distinct in the local store; a peek
never mutates the state; and after N peeks the next created order receives
exactly the peeked value (no gaps). -/
theorem orderNumbers_monotone_unique_nogap :
    (∀ ops : List POp,
        List.Chain' (· < ·) (runOps initAppState ops).2 ∧
        ((runOps initAppState ops).1.orders.map Order.orderNumber).Nodup) ∧
    (∀ s : AppState, runOp s POp.peek = (s, none)) ∧
    (∀ (s : AppState) (N : Nat) (a : CreateArgs),
        (runOps s (List.replicate N POp.peek ++ [POp.create a])).2
          = [peekNextOrderNumber s]) := by
  refine ⟨fun ops => ⟨runOps_chain ops initAppState, ?_⟩,
    fun s => rfl, fun s N a => runOps_peeks_then_create N s a⟩
  have h0 : SeqInv initAppState := by
    constructor
    · exact List.nodup_nil
    · intro n hn
      simp [initAppState] at hn
  exact (runOps_inv ops initAppState h0).1

/-- Claim C3: when no order in the collection carries the targeted id,
`handleUpdateOrder` fails with the not-found error, the orders collection is
unchanged (same contents, hence same count), and the sequence counter is not
advanced. -/
theorem reviseOrder_notFound (s : AppState) (items : List CartItem) (total : ℚ)
    (ty : OrderType) (details : OrderDetails) (method : PaymentMethod)
    (h : ∀ o ∈ s.orders, some o.id ≠ s.currentOrderId) :
    (handleUpdateOrder s items total ty details method).1
      = Except.error OrderError.notFound ∧
    (handleUpdateOrder s items total ty details method).2.1.orders = s.orders ∧
    (handleUpdateOrder s items total ty details method).2.1.orders.length
      = s.orders.length ∧
    (handleUpdateOrder s items total ty details method).2.1.counter = s.counter := by
  have hf : s.orders.find? (fun o => some o.id == s.currentOrderId) = none := by
    rw [List.find?_eq_none]
    intro o ho
    simpa using h o ho
  refine ⟨?_, ?_, ?_, ?_⟩ <;> simp [handleUpdateOrder, hf]

/-- Witness for C3 at a store holding only order "A" while the editing
surface targets the absent id "B". -/
theorem reviseOrder_notFound_witness :
    (handleUpdateOrder sampleStateMissing [] 0 OrderType.DINE_IN {}
        PaymentMethod.CASH).1 = Except.error OrderError.notFound ∧
    (handleUpdateOrder sampleStateMissing [] 0 OrderType.DINE_IN {}
        PaymentMethod.CASH).2.1.counter = sampleStateMissing.counter := by
  have h := reviseOrder_notFound sampleStateMissing [] 0 OrderType.DINE_IN {}
    PaymentMethod.CASH (by decide)
  exact ⟨h.1, h.2.2.2⟩

/-- Claim C4: on an existing order, `handleUpdateOrder` succeeds with the
revised order, which takes the new items, total, payment method and context
detail fields and the PENDING status while keeping the existing id, order
number and creation timestamp; the sequence counter is identical before and
after (the sequence generator's committing increment is never invoked). -/
theorem reviseOrder_existing (s : AppState) (existing : Order)
    (items : List CartItem) (total : ℚ) (ty : OrderType)
    (details : OrderDetails) (method : PaymentMethod)
    (h : s.orders.find? (fun o => some o.id == s.currentOrderId) = some existing) :
    (handleUpdateOrder s items total ty details method).1
      = Except.ok (revisedOrder existing items total details method) ∧
    (revisedOrder existing items total details method).items = items ∧
    (revisedOrder existing items total details method).total = total ∧
    (revisedOrder existing items total details method).paymentMethod = method ∧
    (revisedOrder existing items total details method).tableNumber
      = details.tableNumber ∧
    (revisedOrder existing items total details method).customerName
      = details.customerName ∧
    (revisedOrder existing items total details method).customerPhone
      = details.customerPhone ∧
    (revisedOrder existing items total details method).deliveryAddress
      = details.deliveryAddress ∧
    (revisedOrder existing items total details method).kitchenNote
      = details.kitchenNote ∧
    (revisedOrder existing items total details method).subtotal
      = details.subtotal ∧
    (revisedOrder existing items total details method).status
      = OrderStatus.PENDING ∧
    (revisedOrder existing items total details method).id = existing.id ∧
    (revisedOrder existing items total details method).orderNumber
      = existing.orderNumber ∧
    (revisedOrder existing items total details method).timestamp
      = existing.timestamp ∧
    (handleUpdateOrder s items total ty details method).2.1.counter = s.counter := by
  refine ⟨?_, rfl, rfl, rfl, rfl, rfl, rfl, rfl, rfl, rfl, rfl, rfl, rfl, rfl, ?_⟩ <;>
    simp [handleUpdateOrder, h]

/-- Witness for C4: revising the store's order "A" to a card-paid order with
total 5. -/
theorem reviseOrder_existing_witness :
    (handleUpdateOrder sampleStateEditing [] 5 OrderType.TAKEAWAY {}
        PaymentMethod.CARD).1
      = Except.ok (revisedOrder sampleOrderA [] 5 {} PaymentMethod.CARD) ∧
    (handleUpdateOrder sampleStateEditing [] 5 OrderType.TAKEAWAY {}
        PaymentMethod.CARD).2.1.counter = sampleStateEditing.counter := by
  have h := reviseOrder_existing sampleStateEditing sampleOrderA [] 5
    OrderType.TAKEAWAY {} PaymentMethod.CARD rfl
  exact ⟨h.1, h.2.2.2.2.2.2.2.2.2.2.2.2.2.2⟩

/-- Claim C10: a revise leaves the order's `type` field equal to its previous
value for every order-type argument supplied by the caller: the result of
`handleUpdateOrder` is the revised order, whose `type` equals the existing
order's `type` and does not mention the new order-type argument at all. -/
theorem revise_preserves_orderType (s : AppState) (existing : Order)
    (items : List CartItem) (total : ℚ) (ty : OrderType)
    (details : OrderDetails) (method : PaymentMethod)
    (h : s.orders.find? (fun o => some o.id == s.currentOrderId) = some existing) :
    (handleUpdateOrder s items total ty details method).1
      = Except.ok (revisedOrder existing items total details method) ∧
    (revisedOrder existing items total details method).type = existing.type := by
  constructor
  · simp [handleUpdateOrder, h]
  · rfl

/-- Witness for C10: revising the dine-in order "A" while the caller passes
DELIVERY still leaves the stored type DINE_IN. -/
theorem revise_preserves_orderType_witness :
    (handleUpdateOrder sampleStateEditing [] 0 OrderType.DELIVERY {}
        PaymentMethod.CASH).1
      = Except.ok (revisedOrder sampleOrderA [] 0 {} PaymentMethod.CASH) ∧
    (revisedOrder sampleOrderA [] 0 {} PaymentMethod.CASH).type
      = OrderType.DINE_IN := by
  have h := revise_preserves_orderType sampleStateEditing sampleOrderA [] 0
    OrderType.DELIVERY {} PaymentMethod.CASH rfl
  exact ⟨h.1, h.2⟩

/-- Claim C5 (counterexample): transitioning the status of the absent id "B"
in a store holding only order "A" silently returns the collection unchanged —
the operation has no failure outcome at all, so it never signals NotFound,
contradicting the claim. -/
theorem transition_missing_id_counterexample :
    updateOrderStatus [sampleOrderA] "B" OrderStatus.COMPLETED = [sampleOrderA] ∧
    sampleOrderA.status ≠ OrderStatus.COMPLETED := by
  constructor
  · rfl
  · decide

/-- Claim C5 (amended): `transitionStatus` on an id absent from the orders
collection silently leaves the collection unchanged (no error is signalled);
on a present id the requested status is applied unconditionally — any status
value is written with no transition table. -/
theorem transition_amended (orders : List Order) (oid : String)
    (st : OrderStatus) :
    ((∀ o ∈ orders, o.id ≠ oid) → updateOrderStatus orders oid st = orders) ∧
    (∀ o ∈ orders, o.id = oid →
      ({ o with status := st } : Order) ∈ updateOrderStatus orders oid st) := by
  constructor
  · intro h
    unfold updateOrderStatus
    have heq : orders.map (fun o => if o.id == oid then { o with status := st } else o)
        = orders.map id :=
      List.map_congr_left fun o ho => by simp [h o ho]
    rw [heq, List.map_id]
  · intro o ho hid
    unfold updateOrderStatus
    have hfo : ({ o with status := st } : Order)
        = (fun o => if o.id == oid then { o with status := st } else o) o := by
      simp [hid]
    rw [hfo]
    exact List.mem_map_of_mem _ ho

/-- Witness for the amended C5 theorem: an absent id is a silent no-op, and a
present id gets any requested status applied. -/
theorem transition_amended_witness :
    updateOrderStatus [sampleOrderA] "Z" OrderStatus.READY = [sampleOrderA] ∧
    ({ sampleOrderA with status := OrderStatus.READY } : Order)
      ∈ updateOrderStatus [sampleOrderA] "A" OrderStatus.READY := by
  constructor
  · exact (transition_amended [sampleOrderA] "Z" OrderStatus.READY).1 (by decide)
  · exact (transition_amended [sampleOrderA] "A" OrderStatus.READY).2 sampleOrderA
      (List.mem_singleton_self _) rfl

/-- Claim C6 (counterexample): `handlePlaceOrder` called with an empty cart
does not fail — it creates an order with no items, prepends it to the orders
collection and consumes a sequence number, contradicting the claimed
ValidationFailed with no store mutation. -/
theorem createOrder_emptyCart_counterexample :
    (handlePlaceOrder initAppState "ID1" 0 none [] 0 OrderType.DINE_IN {}
        PaymentMethod.CASH).2.1.orders.length = 1 ∧
    (handlePlaceOrder initAppState "ID1" 0 none [] 0 OrderType.DINE_IN {}
        PaymentMethod.CASH).2.1.counter = 2 ∧
    initAppState.orders.length = 0 ∧
    initAppState.counter = 1 :=
  ⟨rfl, rfl, rfl, rfl⟩

/-- Claim C6 (amended): `createOrder` itself performs no empty-cart
validation — the empty-cart guard is the checkout button of the POS surface,
which is disabled exactly when the cart is empty; for every cart (empty or
not) `handlePlaceOrder` assigns the supplied fresh id, sets status PENDING,
assigns the current counter as the order number, prepends the new order to
the orders collection and advances the counter. -/
theorem createOrder_amended (s : AppState) (fid : String) (now : Nat)
    (cu : Option String) (items : List CartItem) (total : ℚ) (ty : OrderType)
    (details : OrderDetails) (method : PaymentMethod) :
    checkoutDisabled [] = true ∧
    (handlePlaceOrder s fid now cu items total ty details method).1.id = fid ∧
    (handlePlaceOrder s fid now cu items total ty details method).1.status
      = OrderStatus.PENDING ∧
    (handlePlaceOrder s fid now cu items total ty details method).1.orderNumber
      = s.counter ∧
    (handlePlaceOrder s fid now cu items total ty details method).2.1.orders
      = (handlePlaceOrder s fid now cu items total ty details method).1
        :: s.orders ∧
    (handlePlaceOrder s fid now cu items total ty details method).2.1.counter
      = s.counter + 1 :=
  ⟨rfl, rfl, rfl, rfl, rfl, rfl⟩

/-- Claim C7 (counterexample): with sync enabled, updating the printer
configuration changes persisted state but fires no sync push. -/
theorem printer_mutation_no_push_counterexample :
    sampleStateSyncOn.settings.syncEnabled = true ∧
    (handleUpdatePrinter sampleStateSyncOn samplePrinter58).1.printerConfig
      = samplePrinter58 ∧
    samplePrinter58 ≠ sampleStateSyncOn.printerConfig ∧
    (handleUpdatePrinter sampleStateSyncOn samplePrinter58).2 = false := by
  refine ⟨rfl, rfl, ?_, rfl⟩
  decide

/-- Claim C7 (amended): a sync push fires after order placement, order
revision (when the targeted order exists), order status transitions, and
menu / category / inventory / expense mutations exactly when sync is
enabled, and after a settings update exactly when the new settings have sync
enabled — but printer-configuration and user-collection mutations never fire
a push; and a push outcome only updates the sync status, never the persisted
store or the in-memory views. -/
theorem push_trigger_policy (s : AppState) (ns : SystemSettings)
    (pc : PrinterConfig) (us : List User) (mi : List MenuItem) (cat : String)
    (inv : InventoryItem) (e : Expense) (eid : String) (oid : String)
    (ost : OrderStatus) (fid : String) (now : Nat) (cu : Option String)
    (items : List CartItem) (total : ℚ) (ty : OrderType)
    (details : OrderDetails) (method : PaymentMethod) :
    (handleUpdateSettings s ns).2 = ns.syncEnabled ∧
    (handleUpdatePrinter s pc).2 = false ∧
    (handleUpdateUsers s us).2 = false ∧
    (onUpdateMenu s mi).2 = s.settings.syncEnabled ∧
    (onAddCategory s cat).2
      = (if cat ∈ s.categories then false else s.settings.syncEnabled) ∧
    (onAddInventoryItem s inv).2 = s.settings.syncEnabled ∧
    (onUpdateInventoryItem s inv).2 = s.settings.syncEnabled ∧
    (onAddExpense s e).2 = s.settings.syncEnabled ∧
    (onDeleteExpense s eid).2 = s.settings.syncEnabled ∧
    (kitchenUpdateOrderStatus s oid ost).2 = s.settings.syncEnabled ∧
    (handlePlaceOrder s fid now cu items total ty details method).2.2
      = s.settings.syncEnabled ∧
    ((s.orders.find? (fun o => some o.id == s.currentOrderId)).isSome = true →
      (handleUpdateOrder s items total ty details method).2.2
        = s.settings.syncEnabled) ∧
    (∀ (sy : SyncState) (token : String) (online : Bool) (resp : PushResponse),
      (performSyncPush sy token online resp).persisted = sy.persisted ∧
      (performSyncPush sy token online resp).inMemory = sy.inMemory) := by
  refine ⟨rfl, rfl, rfl, rfl, ?_, rfl, rfl, rfl, rfl, rfl, rfl, ?_, ?_⟩
  · unfold onAddCategory
    split <;> simp_all
  · intro hs
    rcases hnf : s.orders.find? (fun o => some o.id == s.currentOrderId) with _ | ex
    · rw [hnf] at hs
      simp at hs
    · simp [handleUpdateOrder, hnf]
  · intro sy token online resp
    unfold performSyncPush
    split
    · exact ⟨rfl, rfl⟩
    · cases resp <;> exact ⟨rfl, rfl⟩

/-- Witness for the amended C7 theorem: revising the existing order "A" with
sync state as configured fires the push exactly per the sync-enabled flag,
and a failed push leaves the persisted store and the in-memory views
untouched. -/
theorem push_trigger_policy_witness :
    (handleUpdateOrder sampleStateEditing [] 0 OrderType.DINE_IN {}
        PaymentMethod.CASH).2.2 = sampleStateEditing.settings.syncEnabled ∧
    (performSyncPush sampleSyncState "tok" true PushResponse.failure).persisted
      = sampleSyncState.persisted ∧
    (performSyncPush sampleSyncState "tok" true PushResponse.failure).inMemory
      = sampleSyncState.inMemory := by
  obtain ⟨-, -, -, -, -, -, -, -, -, -, -, h12, h13⟩ :=
    push_trigger_policy sampleStateEditing initialSettings initialPrinter [] []
      "cat" ⟨"i", "n"⟩ ⟨"e", 0⟩ "eid" "oid" OrderStatus.READY "fid" 0 none [] 0
      OrderType.DINE_IN {} PaymentMethod.CASH
  exact ⟨h12 rfl, (h13 sampleSyncState "tok" true PushResponse.failure).1,
    (h13 sampleSyncState "tok" true PushResponse.failure).2⟩

/-- Claim C8: a pull against a remote returning 404 leaves the persisted
store and the in-memory views unchanged and sets the status to `idle`, which
is not the error status; a pull that fetches a parsed snapshot replaces the
persisted store with it, reloads the in-memory views from it, and reports
success. -/
theorem pull_notFound_and_replace (st : SyncState) (token : String)
    (h : token ≠ "") :
    (performSyncPull st token true PullResponse.notFound).persisted
      = st.persisted ∧
    (performSyncPull st token true PullResponse.notFound).inMemory
      = st.inMemory ∧
    (performSyncPull st token true PullResponse.notFound).status
      = SyncStatus.idle ∧
    SyncStatus.idle ≠ SyncStatus.error ∧
    (∀ cloudData : Snapshot,
      performSyncPull st token true (PullResponse.ok cloudData)
        = { persisted := cloudData, inMemory := cloudData,
            status := SyncStatus.success }) := by
  refine ⟨?_, ?_, ?_, by decide, fun cloudData => ?_⟩ <;>
    simp [performSyncPull, h, saveAllData, loadLocalData]

/-- Witness for C8 at the empty snapshot state with token "tok". -/
theorem pull_notFound_and_replace_witness :
    (performSyncPull sampleSyncState "tok" true PullResponse.notFound).persisted
      = sampleSyncState.persisted ∧
    (performSyncPull sampleSyncState "tok" true PullResponse.notFound).status
      = SyncStatus.idle ∧
    performSyncPull sampleSyncState "tok" true (PullResponse.ok sampleSnapshot2)
      = { persisted := sampleSnapshot2, inMemory := sampleSnapshot2,
          status := SyncStatus.success } := by
  have h := pull_notFound_and_replace sampleSyncState "tok" (by decide)
  exact ⟨h.1, h.2.2.1, h.2.2.2.2 sampleSnapshot2⟩

end POS
